import Mathlib

/-!
Shallow embedding of `liblights/lights.c`, the TI OMAP lights HAL module.

File I/O is modelled by a write oracle `wr : String → Int → Int` giving the
status code that `write_int` returns for an attempted write of a value to a
path (0 on success, a negated platform error number on failure).  Each
per-light operation is embedded as a pure function from the oracle and a
light state to the ordered list of writes it attempts (path and value
pairs) together with the integer status it returns.  The process mutex and
the one-time warning flag have no effect on values written or statuses
returned, so they do not appear in the embedding.
-/

/-- Control-file path from `lights.c`. -/
def LCD_FILE : String := "/sys/class/leds/lcd-backlight/brightness"

/-- Control-file path from `lights.c`. -/
def KEYBOARD_FILE : String := "/sys/class/leds/keyboard-backlight/brightness"

/-- Control-file path from `lights.c`. -/
def CHARGING_LED_FILE : String := "/sys/class/leds/battery-led/brightness"

/-- Control-file path from `lights.c`. -/
def RED_LED_FILE : String := "/sys/class/leds/red/brightness"

/-- Control-file path from `lights.c`. -/
def RED_DELAY_ON_FILE : String := "/sys/class/leds/red/delay_on"

/-- Control-file path from `lights.c`. -/
def RED_DELAY_OFF_FILE : String := "/sys/class/leds/red/delay_off"

/-- Control-file path from `lights.c`. -/
def GREEN_LED_FILE : String := "/sys/class/leds/green/brightness"

/-- Control-file path from `lights.c`. -/
def GREEN_DELAY_ON_FILE : String := "/sys/class/leds/green/delay_on"

/-- Control-file path from `lights.c`. -/
def GREEN_DELAY_OFF_FILE : String := "/sys/class/leds/green/delay_off"

/-- Control-file path from `lights.c`. -/
def BLUE_LED_FILE : String := "/sys/class/leds/blue/brightness"

/-- Control-file path from `lights.c`. -/
def BLUE_DELAY_ON_FILE : String := "/sys/class/leds/blue/delay_on"

/-- Control-file path from `lights.c`. -/
def BLUE_DELAY_OFF_FILE : String := "/sys/class/leds/blue/delay_off"

/-- Modelled from the spec: the flash-mode enum values come from the external
`hardware/lights.h` header (not part of this repository); the spec names the
modes NONE, TIMED, HARDWARE.  Only the distinction TIMED/HARDWARE versus
everything else matters to the code: the `default` switch arm treats every
other value like NONE. -/
def LIGHT_FLASH_NONE : Int := 0

/-- Modelled from the spec: see `LIGHT_FLASH_NONE`. -/
def LIGHT_FLASH_TIMED : Int := 1

/-- Modelled from the spec: see `LIGHT_FLASH_NONE`. -/
def LIGHT_FLASH_HARDWARE : Int := 2

/-- Modelled from the spec: the negative status returned by `open` for an
unknown identifier is the negated platform "invalid argument" error number
(`-EINVAL`), 22 on this platform. -/
def EINVAL : Int := 22

/-- Mirror of `struct light_state_t` from the external `hardware/lights.h`
header: a 32-bit packed 0xAARRGGBB color (held as a `Nat`), a flash mode, the
flash on and off durations in milliseconds (C `int`s, so `Int`), and a
brightness mode that no handler in this module reads. -/
structure light_state_t where
  color : Nat
  flashMode : Int
  flashOnMS : Int
  flashOffMS : Int
  brightnessMode : Int
deriving DecidableEq

/-- Write oracle: the status code `write_int` returns for an attempted write
of a value to a path. -/
abbrev WriteOracle := String → Int → Int

/-- Embeds `is_lit`: returns `state->color & 0x00ffffff` (nonzero means the
light is lit). -/
def is_lit (state : light_state_t) : Nat :=
  state.color &&& 0x00ffffff

/-- Embeds `rgb_to_brightness`: masks the color to 24 bits and combines the
byte components with weights 77, 150, 29, shifted right by 8. -/
def rgb_to_brightness (state : light_state_t) : Nat :=
  let color := state.color &&& 0x00ffffff
  (77 * ((color >>> 16) &&& 0x00ff) + 150 * ((color >>> 8) &&& 0x00ff)
    + 29 * (color &&& 0x00ff)) >>> 8

/-- Embeds `set_light_backlight`: one write of `rgb_to_brightness(state)` to
the LCD file; returns that write's status. -/
def set_light_backlight (wr : WriteOracle) (state : light_state_t) :
    List (String × Int) × Int :=
  let brightness := rgb_to_brightness state
  let err := wr LCD_FILE (brightness : Int)
  ([(LCD_FILE, (brightness : Int))], err)

/-- Embeds `set_light_keyboard`: a no-op that returns 0. -/
def set_light_keyboard (_wr : WriteOracle) (_state : light_state_t) :
    List (String × Int) × Int :=
  ([], 0)

/-- Embeds `set_light_buttons`: one write of 255 (lit) or 0 (unlit) to the
keyboard-backlight file; returns that write's status. -/
def set_light_buttons (wr : WriteOracle) (state : light_state_t) :
    List (String × Int) × Int :=
  let onVal := is_lit state
  let v : Int := if onVal ≠ 0 then 255 else 0
  let err := wr KEYBOARD_FILE v
  ([(KEYBOARD_FILE, v)], err)

/-- Embeds `set_light_battery`: derives (and then never uses) the on and off
durations from the flash mode, then performs one write of 255 (color nonzero)
or 0 to the charging-LED file; returns that write's status.  Note the test is
on the full 32-bit `state->color`, without the 24-bit mask. -/
def set_light_battery (wr : WriteOracle) (state : light_state_t) :
    List (String × Int) × Int :=
  let onMS : Int :=
    if state.flashMode = LIGHT_FLASH_HARDWARE ∨ state.flashMode = LIGHT_FLASH_TIMED
    then state.flashOnMS else 0
  let offMS : Int :=
    if state.flashMode = LIGHT_FLASH_HARDWARE ∨ state.flashMode = LIGHT_FLASH_TIMED
    then state.flashOffMS else 0
  let colorRGB := state.color
  let v : Int := if colorRGB ≠ 0 then 255 else 0
  let err := wr CHARGING_LED_FILE v
  ([(CHARGING_LED_FILE, v)], err)

/-- Embeds `set_light_notification`: derives the on and off durations from
the flash mode, splits the color into byte components, writes each component
to its LED brightness file (reassigning `err` each time, so only the blue
write's status survives), then writes the durations (both positive) or zeros
to the six delay files, discarding those writes' statuses. -/
def set_light_notification (wr : WriteOracle) (state : light_state_t) :
    List (String × Int) × Int :=
  let onMS : Int :=
    if state.flashMode = LIGHT_FLASH_HARDWARE ∨ state.flashMode = LIGHT_FLASH_TIMED
    then state.flashOnMS else 0
  let offMS : Int :=
    if state.flashMode = LIGHT_FLASH_HARDWARE ∨ state.flashMode = LIGHT_FLASH_TIMED
    then state.flashOffMS else 0
  let colorRGB := state.color
  let red : Int := ((colorRGB >>> 16) &&& 0xFF : Nat)
  let green : Int := ((colorRGB >>> 8) &&& 0xFF : Nat)
  let blue : Int := (colorRGB &&& 0xFF : Nat)
  let err := wr RED_LED_FILE red
  let err := wr GREEN_LED_FILE green
  let err := wr BLUE_LED_FILE blue
  let durWrites : List (String × Int) :=
    if onMS > 0 ∧ offMS > 0 then
      [(RED_DELAY_ON_FILE, onMS), (RED_DELAY_OFF_FILE, offMS),
       (GREEN_DELAY_ON_FILE, onMS), (GREEN_DELAY_OFF_FILE, offMS),
       (BLUE_DELAY_ON_FILE, onMS), (BLUE_DELAY_OFF_FILE, offMS)]
    else
      [(RED_DELAY_ON_FILE, 0), (RED_DELAY_OFF_FILE, 0),
       (GREEN_DELAY_ON_FILE, 0), (GREEN_DELAY_OFF_FILE, 0),
       (BLUE_DELAY_ON_FILE, 0), (BLUE_DELAY_OFF_FILE, 0)]
  ((RED_LED_FILE, red) :: (GREEN_LED_FILE, green) :: (BLUE_LED_FILE, blue)
    :: durWrites, err)

/-- Embeds `set_light_attention`: textually the same body as
`set_light_notification` in the source, translated separately from its own
lines. -/
def set_light_attention (wr : WriteOracle) (state : light_state_t) :
    List (String × Int) × Int :=
  let onMS : Int :=
    if state.flashMode = LIGHT_FLASH_HARDWARE ∨ state.flashMode = LIGHT_FLASH_TIMED
    then state.flashOnMS else 0
  let offMS : Int :=
    if state.flashMode = LIGHT_FLASH_HARDWARE ∨ state.flashMode = LIGHT_FLASH_TIMED
    then state.flashOffMS else 0
  let colorRGB := state.color
  let red : Int := ((colorRGB >>> 16) &&& 0xFF : Nat)
  let green : Int := ((colorRGB >>> 8) &&& 0xFF : Nat)
  let blue : Int := (colorRGB &&& 0xFF : Nat)
  let err := wr RED_LED_FILE red
  let err := wr GREEN_LED_FILE green
  let err := wr BLUE_LED_FILE blue
  let durWrites : List (String × Int) :=
    if onMS > 0 ∧ offMS > 0 then
      [(RED_DELAY_ON_FILE, onMS), (RED_DELAY_OFF_FILE, offMS),
       (GREEN_DELAY_ON_FILE, onMS), (GREEN_DELAY_OFF_FILE, offMS),
       (BLUE_DELAY_ON_FILE, onMS), (BLUE_DELAY_OFF_FILE, offMS)]
    else
      [(RED_DELAY_ON_FILE, 0), (RED_DELAY_OFF_FILE, 0),
       (GREEN_DELAY_ON_FILE, 0), (GREEN_DELAY_OFF_FILE, 0),
       (BLUE_DELAY_ON_FILE, 0), (BLUE_DELAY_OFF_FILE, 0)]
  ((RED_LED_FILE, red) :: (GREEN_LED_FILE, green) :: (BLUE_LED_FILE, blue)
    :: durWrites, err)

/-- Device handle produced by `open_lights`: carries the bound per-light
operation (the `set_light` function pointer).  The host-runtime metadata
fields (tag, version, module pointer) carry no behavior and are omitted. -/
structure light_device_t where
  set_light : WriteOracle → light_state_t → List (String × Int) × Int

/-- Embeds `close_lights`: frees the handle when it is non-null (first
component records whether a free happened) and returns 0 unconditionally. -/
def close_lights (dev : Option light_device_t) : Bool × Int :=
  match dev with
  | some _ => (true, 0)
  | none => (false, 0)

/-- Modelled from the spec: identifier string from the external
`hardware/lights.h` header; the spec lists the six identifiers as backlight,
keyboard, buttons, battery, notifications, attention. -/
def LIGHT_ID_BACKLIGHT : String := "backlight"

/-- Modelled from the spec: see `LIGHT_ID_BACKLIGHT`. -/
def LIGHT_ID_KEYBOARD : String := "keyboard"

/-- Modelled from the spec: see `LIGHT_ID_BACKLIGHT`. -/
def LIGHT_ID_BUTTONS : String := "buttons"

/-- Modelled from the spec: see `LIGHT_ID_BACKLIGHT`. -/
def LIGHT_ID_BATTERY : String := "battery"

/-- Modelled from the spec: see `LIGHT_ID_BACKLIGHT`. -/
def LIGHT_ID_NOTIFICATIONS : String := "notifications"

/-- Modelled from the spec: see `LIGHT_ID_BACKLIGHT`. -/
def LIGHT_ID_ATTENTION : String := "attention"

/-- Embeds `open_lights`: exact string match against the six identifiers in
source order binds the corresponding operation into a fresh handle; any other
name yields `-EINVAL` and no handle. -/
def open_lights (name : String) : Except Int light_device_t :=
  if LIGHT_ID_BACKLIGHT = name then Except.ok ⟨set_light_backlight⟩
  else if LIGHT_ID_KEYBOARD = name then Except.ok ⟨set_light_keyboard⟩
  else if LIGHT_ID_BUTTONS = name then Except.ok ⟨set_light_buttons⟩
  else if LIGHT_ID_BATTERY = name then Except.ok ⟨set_light_battery⟩
  else if LIGHT_ID_NOTIFICATIONS = name then Except.ok ⟨set_light_notification⟩
  else if LIGHT_ID_ATTENTION = name then Except.ok ⟨set_light_attention⟩
  else Except.error (-EINVAL)

/-- Oracle on which every write succeeds. -/
def wrOk : WriteOracle := fun _ _ => 0

/-- Oracle on which exactly the blue brightness write succeeds and every
other write fails with status -5. -/
def wrBlueOnly : WriteOracle := fun p _ => if p = BLUE_LED_FILE then 0 else -5

/-- A light identifier outside the known set of six, used to exercise the
failure path of `open_lights`. -/
def unknownName : String := "frontlight"

/-- Masking with 0xffffff is taking the value modulo 2^24. -/
theorem land_ffffff_eq_mod (x : Nat) : x &&& 0xffffff = x % 2 ^ 24 :=
  Nat.and_pow_two_sub_one_eq_mod x 24

/-- Masking with 0xff is taking the value modulo 2^8. -/
theorem land_ff_eq_mod (x : Nat) : x &&& 0xff = x % 2 ^ 8 :=
  Nat.and_pow_two_sub_one_eq_mod x 8

/-- The 24-bit mask is idempotent. -/
theorem land_ffffff_idem (c : Nat) : (c &&& 0xffffff) &&& 0xffffff = c &&& 0xffffff := by
  simp only [land_ffffff_eq_mod]
  omega

/-- The red byte of a 24-bit-masked color is the red byte of the color. -/
theorem red_byte_mask (c : Nat) :
    ((c &&& 0xffffff) >>> 16) &&& 0xff = (c >>> 16) &&& 0xff := by
  simp only [land_ffffff_eq_mod, land_ff_eq_mod, Nat.shiftRight_eq_div_pow]
  omega

/-- The green byte of a 24-bit-masked color is the green byte of the color. -/
theorem green_byte_mask (c : Nat) :
    ((c &&& 0xffffff) >>> 8) &&& 0xff = (c >>> 8) &&& 0xff := by
  simp only [land_ffffff_eq_mod, land_ff_eq_mod, Nat.shiftRight_eq_div_pow]
  omega

/-- The blue byte of a 24-bit-masked color is the blue byte of the color. -/
theorem blue_byte_mask (c : Nat) :
    (c &&& 0xffffff) &&& 0xff = c &&& 0xff := by
  simp only [land_ffffff_eq_mod, land_ff_eq_mod]
  omega

/-- Weighted sum over the masked bytes, written with divisions and
remainders. -/
theorem rgb_formula (c : Nat) :
    (77 * (((c &&& 0xffffff) >>> 16) &&& 0xff) + 150 * (((c &&& 0xffffff) >>> 8) &&& 0xff)
      + 29 * ((c &&& 0xffffff) &&& 0xff)) >>> 8
    = (77 * (c / 2 ^ 16 % 2 ^ 8) + 150 * (c / 2 ^ 8 % 2 ^ 8) + 29 * (c % 2 ^ 8)) / 2 ^ 8 := by
  simp only [land_ffffff_eq_mod, land_ff_eq_mod, Nat.shiftRight_eq_div_pow]
  have h1 : c % 2 ^ 24 / 2 ^ 16 % 2 ^ 8 = c / 2 ^ 16 % 2 ^ 8 := by omega
  have h2 : c % 2 ^ 24 / 2 ^ 8 % 2 ^ 8 = c / 2 ^ 8 % 2 ^ 8 := by omega
  have h3 : c % 2 ^ 24 % 2 ^ 8 = c % 2 ^ 8 := by omega
  rw [h1, h2, h3]

/-- C3: for every color C, `rgb_to_brightness` C equals
(77*R + 150*G + 29*B) >> 8 where R, G, B are bits 16-23, 8-15 and 0-7 of C;
as a Lean function of the state it is deterministic and pure by
construction. -/
theorem C3_rgb_to_brightness_formula (state : light_state_t) :
    rgb_to_brightness state =
      (77 * (state.color / 2 ^ 16 % 2 ^ 8) + 150 * (state.color / 2 ^ 8 % 2 ^ 8)
        + 29 * (state.color % 2 ^ 8)) / 2 ^ 8 :=
  rgb_formula state.color

/-- C8: for every color, `is_lit` is nonzero (true) exactly when the low 24
bits of the color are nonzero, and its value depends only on the color
modulo 2^24, so the top byte of the color is irrelevant. -/
theorem C8_is_lit_iff_low24 (c : Nat) (m onMS offMS bm : Int) :
    (is_lit ⟨c, m, onMS, offMS, bm⟩ ≠ 0 ↔ c &&& 0xffffff ≠ 0) ∧
    is_lit ⟨c % 2 ^ 24, m, onMS, offMS, bm⟩ = is_lit ⟨c, m, onMS, offMS, bm⟩ := by
  constructor
  · exact Iff.rfl
  · show c % 2 ^ 24 &&& 0xffffff = c &&& 0xffffff
    simp only [land_ffffff_eq_mod]
    omega

/-- C5: for every oracle and light state, `set_light_attention` performs the
identical algorithm to `set_light_notification`: the same writes to the same
files with the same values in the same order, and the same returned
status. -/
theorem C5_attention_eq_notification (wr : WriteOracle) (state : light_state_t) :
    set_light_attention wr state = set_light_notification wr state :=
  rfl

/-- C9: `close_lights` returns success (0) on every handle, and a null
handle is accepted as a no-op (nothing is freed, status still 0). -/
theorem C9_close_returns_zero (dev : Option light_device_t) :
    (close_lights dev).2 = 0 ∧ close_lights none = (false, 0) := by
  refine ⟨?_, rfl⟩
  cases dev <;> rfl

/-- C10: for every light state, `rgb_to_brightness` lies in 0..255, and the
backlight operation writes exactly that value, so the value it writes is an
in-range single-byte brightness. -/
theorem C10_brightness_in_range (wr : WriteOracle) (state : light_state_t) :
    rgb_to_brightness state ≤ 255 ∧
    (set_light_backlight wr state).1 = [(LCD_FILE, (rgb_to_brightness state : Int))] ∧
    (0 : Int) ≤ (rgb_to_brightness state : Int) ∧
    ((rgb_to_brightness state : Int) ≤ 255) := by
  have hb : rgb_to_brightness state ≤ 255 := by
    have h1 : ((state.color &&& 0xffffff) >>> 16) &&& 0xff ≤ 0xff := Nat.and_le_right
    have h2 : ((state.color &&& 0xffffff) >>> 8) &&& 0xff ≤ 0xff := Nat.and_le_right
    have h3 : (state.color &&& 0xffffff) &&& 0xff ≤ 0xff := Nat.and_le_right
    show (77 * (((state.color &&& 0xffffff) >>> 16) &&& 0xff)
        + 150 * (((state.color &&& 0xffffff) >>> 8) &&& 0xff)
        + 29 * ((state.color &&& 0xffffff) &&& 0xff)) >>> 8 ≤ 255
    rw [Nat.shiftRight_eq_div_pow]
    omega
  refine ⟨hb, rfl, Int.ofNat_nonneg _, ?_⟩
  exact_mod_cast hb

/-- C1 counterexample: the colors 0x01000000 (alpha byte set, RGB zero) and
0x00000000 agree in their low 24 bits — `is_lit` and `rgb_to_brightness` do
not distinguish them — yet the battery operation writes 255 for the first
and 0 for the second, so the alpha byte does affect a value written to a
control file, refuting the claim as stated. -/
theorem C1_alpha_counterexample :
    is_lit ⟨0x01000000, 0, 0, 0, 0⟩ = is_lit ⟨0, 0, 0, 0, 0⟩ ∧
    rgb_to_brightness ⟨0x01000000, 0, 0, 0, 0⟩ = rgb_to_brightness ⟨0, 0, 0, 0, 0⟩ ∧
    (set_light_battery wrOk ⟨0x01000000, 0, 0, 0, 0⟩).1 = [(CHARGING_LED_FILE, 255)] ∧
    (set_light_battery wrOk ⟨0, 0, 0, 0, 0⟩).1 = [(CHARGING_LED_FILE, 0)] :=
  ⟨rfl, rfl, rfl, rfl⟩

/-- C1 amended: `is_lit`, `rgb_to_brightness` and the backlight, buttons,
notification and attention operations treat the color as 24 significant
bits — replacing the color by its low 24 bits changes nothing — but the
battery operation tests the full 32-bit color, so the alpha byte does affect
its write. -/
theorem C1_amended_alpha_ignored_except_battery (wr : WriteOracle) (c : Nat)
    (m onMS offMS bm : Int) :
    is_lit ⟨c &&& 0xffffff, m, onMS, offMS, bm⟩ = is_lit ⟨c, m, onMS, offMS, bm⟩ ∧
    rgb_to_brightness ⟨c &&& 0xffffff, m, onMS, offMS, bm⟩
      = rgb_to_brightness ⟨c, m, onMS, offMS, bm⟩ ∧
    set_light_backlight wr ⟨c &&& 0xffffff, m, onMS, offMS, bm⟩
      = set_light_backlight wr ⟨c, m, onMS, offMS, bm⟩ ∧
    set_light_buttons wr ⟨c &&& 0xffffff, m, onMS, offMS, bm⟩
      = set_light_buttons wr ⟨c, m, onMS, offMS, bm⟩ ∧
    set_light_notification wr ⟨c &&& 0xffffff, m, onMS, offMS, bm⟩
      = set_light_notification wr ⟨c, m, onMS, offMS, bm⟩ ∧
    set_light_attention wr ⟨c &&& 0xffffff, m, onMS, offMS, bm⟩
      = set_light_attention wr ⟨c, m, onMS, offMS, bm⟩ ∧
    (set_light_battery wr ⟨c, m, onMS, offMS, bm⟩).1
      = [(CHARGING_LED_FILE, if c ≠ 0 then (255 : Int) else 0)] := by
  have hlit : is_lit ⟨c &&& 0xffffff, m, onMS, offMS, bm⟩ = is_lit ⟨c, m, onMS, offMS, bm⟩ :=
    land_ffffff_idem c
  have hrgb : rgb_to_brightness ⟨c &&& 0xffffff, m, onMS, offMS, bm⟩
      = rgb_to_brightness ⟨c, m, onMS, offMS, bm⟩ := by
    show (77 * (((c &&& 0xffffff) &&& 0xffffff) >>> 16 &&& 0xff)
        + 150 * (((c &&& 0xffffff) &&& 0xffffff) >>> 8 &&& 0xff)
        + 29 * ((c &&& 0xffffff) &&& 0xffffff &&& 0xff)) >>> 8
      = (77 * ((c &&& 0xffffff) >>> 16 &&& 0xff)
        + 150 * ((c &&& 0xffffff) >>> 8 &&& 0xff)
        + 29 * ((c &&& 0xffffff) &&& 0xff)) >>> 8
    rw [land_ffffff_idem]
  refine ⟨hlit, hrgb, ?_, ?_, ?_, ?_, rfl⟩
  · show ([(LCD_FILE, (rgb_to_brightness ⟨c &&& 0xffffff, m, onMS, offMS, bm⟩ : Int))],
        wr LCD_FILE (rgb_to_brightness ⟨c &&& 0xffffff, m, onMS, offMS, bm⟩ : Int))
      = ([(LCD_FILE, (rgb_to_brightness ⟨c, m, onMS, offMS, bm⟩ : Int))],
        wr LCD_FILE (rgb_to_brightness ⟨c, m, onMS, offMS, bm⟩ : Int))
    rw [hrgb]
  · show ([(KEYBOARD_FILE, if is_lit ⟨c &&& 0xffffff, m, onMS, offMS, bm⟩ ≠ 0
          then (255 : Int) else 0)],
        wr KEYBOARD_FILE (if is_lit ⟨c &&& 0xffffff, m, onMS, offMS, bm⟩ ≠ 0
          then (255 : Int) else 0))
      = ([(KEYBOARD_FILE, if is_lit ⟨c, m, onMS, offMS, bm⟩ ≠ 0 then (255 : Int) else 0)],
        wr KEYBOARD_FILE (if is_lit ⟨c, m, onMS, offMS, bm⟩ ≠ 0 then (255 : Int) else 0))
    rw [hlit]
  · simp only [set_light_notification, red_byte_mask, green_byte_mask, blue_byte_mask]
  · simp only [set_light_attention, red_byte_mask, green_byte_mask, blue_byte_mask]

/-- C2 counterexample: on the oracle where only the blue brightness write
succeeds, the notification operation's last attempted write is to the blue
delay_off file and that write's status is -5, yet the operation returns 0
(the blue brightness write's status), so the returned status is not the
error code of the last file write attempted. -/
theorem C2_last_write_counterexample :
    (set_light_notification wrBlueOnly ⟨0, 0, 0, 0, 0⟩).1.getLast? =
      some (BLUE_DELAY_OFF_FILE, (0 : Int)) ∧
    wrBlueOnly BLUE_DELAY_OFF_FILE 0 = -5 ∧
    (set_light_notification wrBlueOnly ⟨0, 0, 0, 0, 0⟩).2 = 0 := by
  refine ⟨rfl, ?_, rfl⟩
  show (if BLUE_DELAY_OFF_FILE = BLUE_LED_FILE then (0 : Int) else -5) = -5
  rw [if_neg]
  decide

/-- C2 amended: every per-light operation returns the error code of the last
file write whose result it captures, earlier captured failures being
overwritten: the single write for backlight, buttons and battery, the blue
brightness write for notification and attention (the six later duration
writes' statuses are discarded), and 0 for keyboard, which writes
nothing. -/
theorem C2_amended_status_sources (wr : WriteOracle) (state : light_state_t) :
    (set_light_backlight wr state).2 = wr LCD_FILE (rgb_to_brightness state : Int) ∧
    (set_light_keyboard wr state).2 = 0 ∧
    (set_light_buttons wr state).2
      = wr KEYBOARD_FILE (if is_lit state ≠ 0 then 255 else 0) ∧
    (set_light_battery wr state).2
      = wr CHARGING_LED_FILE (if state.color ≠ 0 then 255 else 0) ∧
    (set_light_notification wr state).2 = wr BLUE_LED_FILE ((state.color &&& 0xFF : Nat) : Int) ∧
    (set_light_attention wr state).2 = wr BLUE_LED_FILE ((state.color &&& 0xFF : Nat) : Int) :=
  ⟨rfl, rfl, rfl, rfl, rfl, rfl⟩

/-- C4: with color 0x00112233, flash mode TIMED and durations 100/200, the
notification and attention operations write 0x11, 0x22, 0x33 to the red,
green and blue brightness files and 100/200 to all three delay_on/delay_off
pairs; with flash mode NONE and the same requested durations they write 0 to
all six duration files. -/
theorem C4_notification_attention_writes (wr : WriteOracle) :
    (set_light_notification wr ⟨0x00112233, LIGHT_FLASH_TIMED, 100, 200, 0⟩).1 =
      [(RED_LED_FILE, 0x11), (GREEN_LED_FILE, 0x22), (BLUE_LED_FILE, 0x33),
       (RED_DELAY_ON_FILE, 100), (RED_DELAY_OFF_FILE, 200),
       (GREEN_DELAY_ON_FILE, 100), (GREEN_DELAY_OFF_FILE, 200),
       (BLUE_DELAY_ON_FILE, 100), (BLUE_DELAY_OFF_FILE, 200)] ∧
    (set_light_attention wr ⟨0x00112233, LIGHT_FLASH_TIMED, 100, 200, 0⟩).1 =
      [(RED_LED_FILE, 0x11), (GREEN_LED_FILE, 0x22), (BLUE_LED_FILE, 0x33),
       (RED_DELAY_ON_FILE, 100), (RED_DELAY_OFF_FILE, 200),
       (GREEN_DELAY_ON_FILE, 100), (GREEN_DELAY_OFF_FILE, 200),
       (BLUE_DELAY_ON_FILE, 100), (BLUE_DELAY_OFF_FILE, 200)] ∧
    (set_light_notification wr ⟨0x00112233, LIGHT_FLASH_NONE, 100, 200, 0⟩).1 =
      [(RED_LED_FILE, 0x11), (GREEN_LED_FILE, 0x22), (BLUE_LED_FILE, 0x33),
       (RED_DELAY_ON_FILE, 0), (RED_DELAY_OFF_FILE, 0),
       (GREEN_DELAY_ON_FILE, 0), (GREEN_DELAY_OFF_FILE, 0),
       (BLUE_DELAY_ON_FILE, 0), (BLUE_DELAY_OFF_FILE, 0)] ∧
    (set_light_attention wr ⟨0x00112233, LIGHT_FLASH_NONE, 100, 200, 0⟩).1 =
      [(RED_LED_FILE, 0x11), (GREEN_LED_FILE, 0x22), (BLUE_LED_FILE, 0x33),
       (RED_DELAY_ON_FILE, 0), (RED_DELAY_OFF_FILE, 0),
       (GREEN_DELAY_ON_FILE, 0), (GREEN_DELAY_OFF_FILE, 0),
       (BLUE_DELAY_ON_FILE, 0), (BLUE_DELAY_OFF_FILE, 0)] :=
  ⟨rfl, rfl, rfl, rfl⟩

/-- C7: the battery operation performs exactly one control-file write — 255
to the charging-LED brightness file when the color is nonzero, else 0 — and
its entire result (writes and returned status) is unchanged when the flash
mode and the flash on/off durations are replaced by arbitrary other values:
the derived durations are discarded. -/
theorem C7_battery_single_write_flash_independent (wr : WriteOracle) (c : Nat)
    (m onMS offMS bm m2 onMS2 offMS2 : Int) :
    (set_light_battery wr ⟨c, m, onMS, offMS, bm⟩).1
      = [(CHARGING_LED_FILE, if c ≠ 0 then (255 : Int) else 0)] ∧
    set_light_battery wr ⟨c, m2, onMS2, offMS2, bm⟩
      = set_light_battery wr ⟨c, m, onMS, offMS, bm⟩ :=
  ⟨rfl, rfl⟩

/-- C6: opening each of the six known identifiers succeeds and binds the
operation the table names (backlight, keyboard, buttons, battery,
notification, attention respectively), while opening any name outside the
six returns the negated invalid-argument error and produces no handle. -/
theorem C6_open_dispatch (name : String)
    (h : name ∉ [LIGHT_ID_BACKLIGHT, LIGHT_ID_KEYBOARD, LIGHT_ID_BUTTONS,
      LIGHT_ID_BATTERY, LIGHT_ID_NOTIFICATIONS, LIGHT_ID_ATTENTION]) :
    open_lights LIGHT_ID_BACKLIGHT = Except.ok ⟨set_light_backlight⟩ ∧
    open_lights LIGHT_ID_KEYBOARD = Except.ok ⟨set_light_keyboard⟩ ∧
    open_lights LIGHT_ID_BUTTONS = Except.ok ⟨set_light_buttons⟩ ∧
    open_lights LIGHT_ID_BATTERY = Except.ok ⟨set_light_battery⟩ ∧
    open_lights LIGHT_ID_NOTIFICATIONS = Except.ok ⟨set_light_notification⟩ ∧
    open_lights LIGHT_ID_ATTENTION = Except.ok ⟨set_light_attention⟩ ∧
    open_lights name = Except.error (-EINVAL) := by
  simp only [List.mem_cons, List.not_mem_nil, or_false, not_or] at h
  obtain ⟨h1, h2, h3, h4, h5, h6⟩ := h
  refine ⟨rfl, rfl, rfl, rfl, rfl, rfl, ?_⟩
  unfold open_lights
  rw [if_neg (Ne.symm h1), if_neg (Ne.symm h2), if_neg (Ne.symm h3),
    if_neg (Ne.symm h4), if_neg (Ne.symm h5), if_neg (Ne.symm h6)]

/-- Witness for C6 at the concrete unknown identifier. -/
theorem C6_open_dispatch_witness :
    unknownName ∉ [LIGHT_ID_BACKLIGHT, LIGHT_ID_KEYBOARD, LIGHT_ID_BUTTONS,
      LIGHT_ID_BATTERY, LIGHT_ID_NOTIFICATIONS, LIGHT_ID_ATTENTION] ∧
    (open_lights LIGHT_ID_BACKLIGHT = Except.ok ⟨set_light_backlight⟩ ∧
     open_lights LIGHT_ID_KEYBOARD = Except.ok ⟨set_light_keyboard⟩ ∧
     open_lights LIGHT_ID_BUTTONS = Except.ok ⟨set_light_buttons⟩ ∧
     open_lights LIGHT_ID_BATTERY = Except.ok ⟨set_light_battery⟩ ∧
     open_lights LIGHT_ID_NOTIFICATIONS = Except.ok ⟨set_light_notification⟩ ∧
     open_lights LIGHT_ID_ATTENTION = Except.ok ⟨set_light_attention⟩ ∧
     open_lights unknownName = Except.error (-EINVAL)) :=
  ⟨by decide, C6_open_dispatch unknownName (by decide)⟩
